import Mathlib

/-!
Verification of the knowledge-graph store and ingestion pipeline
(`database_utils.py`, `db_init.py`, `extract_and_populate.py`,
`upload_2_db.py`) against its specification.

The PostgreSQL tables declared in `db_init.py` are embedded as lists of
rows together with the serial-id counters; each SQL statement issued by
the Python code becomes a pure function on that state.  `ON CONFLICT`
clauses are modelled exactly as PostgreSQL resolves them: look up the
conflicting row by the arbiter unique key, then either update the named
columns, do nothing, or append a fresh row.  CHECK and FOREIGN KEY
constraint violations (which surface in Python as driver exceptions that
abort the statement) are modelled by an error result that leaves the
state unchanged.  Timestamps filled by `DEFAULT CURRENT_TIMESTAMP` are
supplied as an explicit `now` argument.
-/

set_option maxHeartbeats 1000000

namespace KG

/-- Row of the `papers` table (`db_init.py`, table 1).  The generated
tsvector columns are derived data and are not modelled. -/
structure PaperRow where
  id : Nat
  arxiv_id : String
  title : String
  abstract : Option String
  authors : List String
  published_date : Option String
  pdf_path : Option String
  full_text : Option String
  is_seminal : Bool
deriving Repr, DecidableEq

/-- Row of the `concepts` table (`db_init.py`, table 2);
`mention_count` has schema default 1. -/
structure ConceptRow where
  id : Nat
  name : String
  concept_type : Option String
  description : Option String
  mention_count : Nat
deriving Repr, DecidableEq

/-- Row of the `paper_concepts` table (`db_init.py`, table 3). -/
structure PaperConceptRow where
  id : Nat
  paper_id : Nat
  concept_id : Nat
  relevance_score : Option ℚ
  context : Option String
deriving Repr, DecidableEq

/-- Row of the `paper_relationships` table (`db_init.py`, table 4).
`confidence` is always supplied by `insert_relationship`, so it is
modelled as a plain rational; `validated` has schema default FALSE and
`extracted_at` default CURRENT_TIMESTAMP. -/
structure RelationshipRow where
  id : Nat
  source_paper_id : Nat
  target_paper_id : Nat
  relationship_type : String
  explanation : String
  confidence : ℚ
  extracted_at : Nat
  validated : Bool
deriving Repr, DecidableEq

/-- Row of the `extraction_logs` table (`db_init.py`, table 5). -/
structure LogRow where
  id : Nat
  paper_id : Nat
  stage : String
  status : String
  error_message : Option String
  processing_time_seconds : Option ℚ
deriving Repr, DecidableEq

/-- The database state: the five tables plus the SERIAL counters. -/
structure DB where
  papers : List PaperRow
  concepts : List ConceptRow
  paper_concepts : List PaperConceptRow
  paper_relationships : List RelationshipRow
  extraction_logs : List LogRow
  next_paper_id : Nat
  next_concept_id : Nat
  next_pc_id : Nat
  next_rel_id : Nat
  next_log_id : Nat
deriving Repr, DecidableEq

/-- The `paper_data` dictionary expected by
`DatabaseConnection.insert_paper` (`database_utils.py`). -/
structure PaperData where
  arxiv_id : String
  title : String
  abstract : Option String
  authors : List String
  published_date : Option String
  pdf_path : Option String
  full_text : Option String
  is_seminal : Bool
deriving Repr, DecidableEq

/-- Arbiter predicate of the papers UNIQUE(arxiv_id) constraint. -/
def paperMatches (aid : String) (r : PaperRow) : Bool :=
  r.arxiv_id == aid

/-- `DatabaseConnection.insert_paper` (`database_utils.py` lines 81-119):
`INSERT INTO papers ... ON CONFLICT (arxiv_id) DO UPDATE SET
title = EXCLUDED.title, abstract = EXCLUDED.abstract,
full_text = EXCLUDED.full_text RETURNING id`.  On conflict only the
three named columns are replaced; `authors`, `published_date`,
`pdf_path` and `is_seminal` keep their stored values, and the returned
id is the existing row's id. -/
def insert_paper (db : DB) (d : PaperData) : Nat × DB :=
  match db.papers.find? (paperMatches d.arxiv_id) with
  | some r =>
      (r.id,
       { db with
          papers := db.papers.map (fun p =>
            if paperMatches d.arxiv_id p then
              { p with title := d.title, abstract := d.abstract,
                       full_text := d.full_text }
            else p) })
  | none =>
      (db.next_paper_id,
       { db with
          papers := db.papers ++
            [{ id := db.next_paper_id, arxiv_id := d.arxiv_id,
               title := d.title, abstract := d.abstract,
               authors := d.authors, published_date := d.published_date,
               pdf_path := d.pdf_path, full_text := d.full_text,
               is_seminal := d.is_seminal }],
          next_paper_id := db.next_paper_id + 1 })

/-- `DatabaseConnection.get_paper_by_arxiv_id` (`database_utils.py`
lines 121-125): `SELECT * FROM papers WHERE arxiv_id = :arxiv_id`,
returning the first row or `None`. -/
def get_paper_by_arxiv_id (db : DB) (aid : String) : Option PaperRow :=
  db.papers.find? (paperMatches aid)

/-- Arbiter predicate of the concepts UNIQUE(name) constraint. -/
def conceptMatches (name : String) (c : ConceptRow) : Bool :=
  c.name == name

/-- `DatabaseConnection.insert_concept` (`database_utils.py` lines
136-163): `INSERT INTO concepts (name, concept_type, description)
VALUES ... ON CONFLICT (name) DO UPDATE SET
mention_count = concepts.mention_count + 1 RETURNING id`.  A fresh row
gets the schema default `mention_count = 1`; on conflict only the
counter is bumped — `description` and `concept_type` keep their stored
values — and the existing id is returned. -/
def insert_concept (db : DB) (name concept_type : String)
    (description : Option String) : Nat × DB :=
  match db.concepts.find? (conceptMatches name) with
  | some c =>
      (c.id,
       { db with
          concepts := db.concepts.map (fun x =>
            if conceptMatches name x then
              { x with mention_count := x.mention_count + 1 }
            else x) })
  | none =>
      (db.next_concept_id,
       { db with
          concepts := db.concepts ++
            [{ id := db.next_concept_id, name := name,
               concept_type := some concept_type,
               description := description, mention_count := 1 }],
          next_concept_id := db.next_concept_id + 1 })

/-- A sequence of `insert_concept` calls for one name, each with its own
(concept_type, description) arguments. -/
def insert_concept_list (db : DB) (name : String) :
    List (String × Option String) → DB
  | [] => db
  | a :: rest => insert_concept_list (insert_concept db name a.1 a.2).2 name rest

/-- FOREIGN KEY lookup: does a `papers` row with this id exist. -/
def paperIdExists (db : DB) (pid : Nat) : Bool :=
  db.papers.any (fun p => p.id == pid)

/-- FOREIGN KEY lookup: does a `concepts` row with this id exist. -/
def conceptIdExists (db : DB) (cid : Nat) : Bool :=
  db.concepts.any (fun c => c.id == cid)

/-- Arbiter predicate of the paper_concepts UNIQUE(paper_id, concept_id)
constraint. -/
def pcMatches (pid cid : Nat) (e : PaperConceptRow) : Bool :=
  e.paper_id == pid && e.concept_id == cid

/-- The schema CHECK `relevance_score BETWEEN 0 AND 1`; SQL BETWEEN on a
NULL value is not false, so an absent score passes. -/
def relevanceOk : Option ℚ → Bool
  | none => true
  | some r => decide (0 ≤ r) && decide (r ≤ 1)

/-- `DatabaseConnection.link_paper_concept` (`database_utils.py` lines
165-192): `INSERT INTO paper_concepts ... ON CONFLICT
(paper_id, concept_id) DO NOTHING`.  Foreign-key or CHECK violations
abort the statement (driver exception, modelled as `Except.error`); an
existing pair is silently left untouched. -/
def link_paper_concept (db : DB) (paper_id concept_id : Nat)
    (relevance_score : Option ℚ) (context : Option String) :
    Except String DB :=
  if paperIdExists db paper_id then
    if conceptIdExists db concept_id then
      if relevanceOk relevance_score then
        if db.paper_concepts.any (pcMatches paper_id concept_id) then
          Except.ok db
        else
          Except.ok
            { db with
               paper_concepts := db.paper_concepts ++
                 [{ id := db.next_pc_id, paper_id := paper_id,
                    concept_id := concept_id,
                    relevance_score := relevance_score,
                    context := context }],
               next_pc_id := db.next_pc_id + 1 }
      else Except.error "paper_concepts_relevance_score_check"
    else Except.error "paper_concepts_concept_id_fkey"
  else Except.error "paper_concepts_paper_id_fkey"

/-- Arbiter predicate of the paper_relationships
UNIQUE(source_paper_id, target_paper_id, relationship_type)
constraint. -/
def relTripleMatches (src tgt : Nat) (rtype : String)
    (r : RelationshipRow) : Bool :=
  r.source_paper_id == src && r.target_paper_id == tgt &&
    r.relationship_type == rtype

/-- The schema CHECK `confidence BETWEEN 0 AND 1`. -/
def confidenceOk (c : ℚ) : Bool :=
  decide (0 ≤ c) && decide (c ≤ 1)

/-- `DatabaseConnection.insert_relationship` (`database_utils.py` lines
198-243): `INSERT INTO paper_relationships ... ON CONFLICT
(source_paper_id, target_paper_id, relationship_type) DO UPDATE SET
explanation = EXCLUDED.explanation, confidence = EXCLUDED.confidence
RETURNING id`.  The schema CHECKs `source_paper_id != target_paper_id`
and `confidence BETWEEN 0 AND 1` and the two foreign keys abort the
statement on violation (driver exception; transaction not committed, so
the state is returned unchanged).  On conflict, only `explanation` and
`confidence` are replaced; `validated`, `extracted_at` and the id stay;
a fresh row gets `validated = FALSE` and `extracted_at = now`. -/
def insert_relationship (db : DB) (source_paper_id target_paper_id : Nat)
    (relationship_type explanation : String) (confidence : ℚ)
    (now : Nat) : Except String Nat × DB :=
  if paperIdExists db source_paper_id then
    if paperIdExists db target_paper_id then
      if source_paper_id == target_paper_id then
        (Except.error "paper_relationships_no_self_reference_check", db)
      else
        if confidenceOk confidence then
          match db.paper_relationships.find?
              (relTripleMatches source_paper_id target_paper_id
                relationship_type) with
          | some r =>
              (Except.ok r.id,
               { db with
                  paper_relationships := db.paper_relationships.map
                    (fun x =>
                      if relTripleMatches source_paper_id target_paper_id
                          relationship_type x then
                        { x with explanation := explanation,
                                 confidence := confidence }
                      else x) })
          | none =>
              (Except.ok db.next_rel_id,
               { db with
                  paper_relationships := db.paper_relationships ++
                    [{ id := db.next_rel_id,
                       source_paper_id := source_paper_id,
                       target_paper_id := target_paper_id,
                       relationship_type := relationship_type,
                       explanation := explanation,
                       confidence := confidence, extracted_at := now,
                       validated := false }],
                  next_rel_id := db.next_rel_id + 1 })
        else (Except.error "paper_relationships_confidence_check", db)
    else (Except.error "paper_relationships_target_paper_id_fkey", db)
  else (Except.error "paper_relationships_source_paper_id_fkey", db)

/-- Python's `round(x, 2)` as used by `get_statistics`
(`database_utils.py` line 349): rounding to two decimal places.
(Python rounds half to even; the two functions agree except on exact
half-hundredths, which none of the claims touch.) -/
def round2 (q : ℚ) : ℚ :=
  ((round (q * 100) : ℤ) : ℚ) / 100

/-- The grouping keys of `GROUP BY source_paper_id` in the
average-relationships subquery of `get_statistics` (`database_utils.py`
lines 341-348): the distinct source paper ids. -/
def sourceIds (db : DB) : List Nat :=
  (db.paper_relationships.map (fun r => r.source_paper_id)).dedup

/-- The inner subquery `SELECT COUNT(*) AS rel_count FROM
paper_relationships GROUP BY source_paper_id`: one count per distinct
source id. -/
def rel_counts_by_source (db : DB) : List Nat :=
  (sourceIds db).map (fun g =>
    (db.paper_relationships.filter
      (fun r => r.source_paper_id == g)).length)

/-- `SELECT AVG(rel_count) ...` over the subquery: SQL `AVG` of an
empty input is NULL (`none`). -/
def avg_relationships_opt (db : DB) : Option ℚ :=
  if rel_counts_by_source db = [] then none
  else
    some (((rel_counts_by_source db).map (Nat.cast : Nat → ℚ)).sum /
      ((rel_counts_by_source db).length : ℚ))

/-- The `avg_relationships_per_paper` entry of
`DatabaseConnection.get_statistics` (`database_utils.py` lines
340-349): `round(result[0]['avg_relationships'] or 0, 2)` — the NULL
from an empty relationship set is mapped to 0 before rounding. -/
def avg_relationships_per_paper (db : DB) : ℚ :=
  round2 ((avg_relationships_opt db).getD 0)

/-- Number of outgoing relationship edges of one paper id. -/
def out_degree (db : DB) (pid : Nat) : Nat :=
  (db.paper_relationships.filter
    (fun r => r.source_paper_id == pid)).length

/-- Projection returned by the SELECT of
`DatabaseConnection.get_paper_relationships` (`database_utils.py`
lines 245-280). -/
structure RelQueryRow where
  id : Nat
  relationship_type : String
  explanation : String
  confidence : ℚ
  source_title : String
  target_title : String
  target_arxiv_id : String
deriving Repr, DecidableEq

/-- Primary-key lookup in `papers` (the JOIN conditions). -/
def findPaperById (db : DB) (pid : Nat) : Option PaperRow :=
  db.papers.find? (fun p => p.id == pid)

/-- The WHERE clause of `get_paper_relationships`:
`(pr.source_paper_id = :paper_id OR pr.target_paper_id = :paper_id)
AND pr.confidence >= :min_confidence`. -/
def relWhere (pid : Nat) (minc : ℚ) (r : RelationshipRow) : Bool :=
  (r.source_paper_id == pid || r.target_paper_id == pid) &&
    decide (minc ≤ r.confidence)

/-- The two inner JOINs on `papers`: an edge contributes a result row
only when both endpoint papers exist. -/
def joinPapers (db : DB) (r : RelationshipRow) : Option RelQueryRow :=
  match findPaperById db r.source_paper_id,
        findPaperById db r.target_paper_id with
  | some s, some t =>
      some { id := r.id, relationship_type := r.relationship_type,
             explanation := r.explanation, confidence := r.confidence,
             source_title := s.title, target_title := t.title,
             target_arxiv_id := t.arxiv_id }
  | _, _ => none

/-- The (unordered) row set produced by the FROM/JOIN/WHERE part of
`get_paper_relationships`, in table order. -/
def get_paper_relationships_rows (db : DB) (pid : Nat) (minc : ℚ) :
    List RelQueryRow :=
  (db.paper_relationships.filter (relWhere pid minc)).filterMap
    (joinPapers db)

/-- Admissible outputs of `get_paper_relationships`: the query ends in
`ORDER BY pr.confidence DESC` with no further sort key, so SQL fixes
the result only up to permutation among rows of equal confidence — any
confidence-non-increasing arrangement of the selected rows is a
possible result. -/
def isQueryResult (db : DB) (pid : Nat) (minc : ℚ)
    (out : List RelQueryRow) : Prop :=
  out.Perm (get_paper_relationships_rows db pid minc) ∧
  out.Pairwise (fun a b => b.confidence ≤ a.confidence)

/-- The ordering asserted by the claim: confidence strictly descending,
with ties broken by ascending internal edge id. -/
def claimTieOrder (out : List RelQueryRow) : Prop :=
  out.Pairwise (fun a b =>
    b.confidence < a.confidence ∨
      (a.confidence = b.confidence ∧ a.id < b.id))

/-- One iteration of the module-level upload loop of `upload_2_db.py`
(lines 19-33): `INSERT INTO papers (...) VALUES (...) ON CONFLICT
(arxiv_id) DO NOTHING`, with `full_text` hard-coded to NULL ("extract
later") and the raw `published` string from the metadata. -/
def upload_2_db_insert (db : DB) (arxiv_id title : String)
    (abstract : Option String) (authors : List String)
    (published : Option String) (local_pdf_path : Option String)
    (is_seminal : Bool) : DB :=
  if db.papers.any (paperMatches arxiv_id) then db
  else
    { db with
       papers := db.papers ++
         [{ id := db.next_paper_id, arxiv_id := arxiv_id,
            title := title, abstract := abstract, authors := authors,
            published_date := published, pdf_path := local_pdf_path,
            full_text := none, is_seminal := is_seminal }],
       next_paper_id := db.next_paper_id + 1 }

/-- One metadata entry of `papers_metadata.json` as consumed by
`process_papers` / `prepare_paper_data` (`extract_and_populate.py`);
`abstract` and `published` default to the empty string when the key is
missing (`metadata.get(..., '')`). -/
structure PaperMeta where
  arxiv_id : String
  title : String
  abstract : String
  authors : List String
  published : String
  local_pdf_path : Option String
  is_seminal : Bool
deriving Repr, DecidableEq

/-- `prepare_paper_data` (`extract_and_populate.py` lines 110-136):
formats a metadata entry plus the extracted text for `insert_paper`;
the published timestamp is cut at its `T` separator and an empty date
becomes NULL. -/
def prepare_paper_data (m : PaperMeta) (full_text : String) : PaperData :=
  { arxiv_id := m.arxiv_id
    title := m.title
    abstract := some m.abstract
    authors := m.authors
    published_date :=
      if m.published = "" then none
      else some ((m.published.splitOn "T").headD m.published)
    pdf_path := m.local_pdf_path
    full_text := some full_text
    is_seminal := m.is_seminal }

/-- `DatabaseConnection.log_extraction` (`database_utils.py` lines
286-318): a plain append to `extraction_logs`. -/
def log_extraction (db : DB) (paper_id : Nat) (stage status : String)
    (error_message : Option String) (processing_time : Option ℚ) : DB :=
  { db with
     extraction_logs := db.extraction_logs ++
       [{ id := db.next_log_id, paper_id := paper_id, stage := stage,
          status := status, error_message := error_message,
          processing_time_seconds := processing_time }],
     next_log_id := db.next_log_id + 1 }

/-- One paper as the orchestrator sees it: its metadata entry plus the
outcome of the external artifact/extraction capabilities —
`pdf_exists` models `os.path.exists(local_pdf_path)` and `extracted`
models the return of `PDFTextExtractor.extract_text` (`none` =
extraction failed). -/
structure PaperInput where
  meta : PaperMeta
  pdf_exists : Bool
  extracted : Option String
deriving Repr, DecidableEq

/-- The `stats` counters of `process_papers`
(`extract_and_populate.py` lines 150-156). -/
structure RunStats where
  total : Nat
  successful : Nat
  failed_pdf : Nat
  failed_db : Nat
  skipped : Nat
deriving Repr, DecidableEq

/-- Python truthiness of `existing.get('full_text')`: both SQL NULL and
the empty string are falsy. -/
def textPresent : Option String → Bool
  | none => false
  | some s => !(s == "")

/-- The skip test of `process_papers` (`extract_and_populate.py` lines
171-176): `existing = db.get_paper_by_arxiv_id(arxiv_id); if existing
and existing.get('full_text')`. -/
def alreadyDone (db : DB) (aid : String) : Bool :=
  match get_paper_by_arxiv_id db aid with
  | some p => textPresent p.full_text
  | none => false

/-- The artifact test of `process_papers` (`extract_and_populate.py`
line 180): `if not pdf_path or not os.path.exists(pdf_path)` — a
missing key, an empty path (falsy) or a non-existent file all count as
a missing artifact. -/
def pdfMissing (inp : PaperInput) : Bool :=
  match inp.meta.local_pdf_path with
  | none => true
  | some p => p == "" || !inp.pdf_exists

/-- The body of the per-paper loop of `process_papers`
(`extract_and_populate.py` lines 164-229).  Paths, in source order:
already-in-store-with-text bumps `skipped` and touches nothing else;
missing artifact persists a metadata-only record (empty text) and bumps
`failed_pdf` — with NO audit-log write; failed or empty extraction
bumps `failed_pdf` with no store write and no log; successful
extraction upserts the full record, bumps `successful`, and writes the
single `('pdf_extraction', 'success')` audit row.  The store of this
model never throws, so the `failed_db` except-branches are unreachable
and the function is total — no exception reaches the caller. -/
def process_one_paper (db : DB) (st : RunStats) (inp : PaperInput) :
    DB × RunStats :=
  if alreadyDone db inp.meta.arxiv_id then
    (db, { st with skipped := st.skipped + 1 })
  else if pdfMissing inp then
    ((insert_paper db (prepare_paper_data inp.meta "")).2,
     { st with failed_pdf := st.failed_pdf + 1 })
  else
    match inp.extracted with
    | none => (db, { st with failed_pdf := st.failed_pdf + 1 })
    | some t =>
        if t == "" then (db, { st with failed_pdf := st.failed_pdf + 1 })
        else
          let res := insert_paper db (prepare_paper_data inp.meta t)
          (log_extraction res.2 res.1 "pdf_extraction" "success" none
             none,
           { st with successful := st.successful + 1 })

/-- The loop of `process_papers` over all metadata entries. -/
def process_papers_loop : DB → RunStats → List PaperInput → DB × RunStats
  | db, st, [] => (db, st)
  | db, st, inp :: rest =>
      process_papers_loop (process_one_paper db st inp).1
        (process_one_paper db st inp).2 rest

/-- `process_papers` (`extract_and_populate.py` lines 139-230): start
with `total = len(papers_metadata)` and all other counters 0, then
process each paper in turn, returning the final store and the summary
counters. -/
def process_papers (db : DB) (inputs : List PaperInput) : DB × RunStats :=
  process_papers_loop db
    { total := inputs.length, successful := 0, failed_pdf := 0,
      failed_db := 0, skipped := 0 } inputs

/-- The three-identifier scenario store: paper "idA" already present
with non-empty full text. -/
def scn_store : DB :=
  ⟨[⟨1, "idA", "TA", some "", [], none, none, some "textA", false⟩],
   [], [], [], [], 2, 1, 1, 1, 1⟩

/-- The three-identifier scenario run: "idA" already complete in the
store, "idB" without a downloadable artifact, "idC" fully
successful. -/
def scn_inputs : List PaperInput :=
  [⟨⟨"idA", "TA", "", [], "", none, false⟩, false, none⟩,
   ⟨⟨"idB", "TB", "", [], "", none, false⟩, false, none⟩,
   ⟨⟨"idC", "TC", "", [], "", some "c.pdf", false⟩, true, some "hello"⟩]

section ListLemmas

variable {α : Type _}

theorem map_keep_of_all_false (p : α → Bool) (f : α → α) :
    ∀ l : List α, (∀ x ∈ l, p x = false) →
      l.map (fun x => if p x then f x else x) = l := by
  intro l h
  induction l with
  | nil => rfl
  | cons a t ih =>
      have ha : p a = false := h a (List.mem_cons_self a t)
      have ht : ∀ x ∈ t, p x = false := fun x hx => h x (List.mem_cons_of_mem a hx)
      simp [ha, ih ht]

theorem filter_eq_nil_of_all_false (p : α → Bool) :
    ∀ l : List α, (∀ x ∈ l, p x = false) → l.filter p = [] := by
  intro l h
  induction l with
  | nil => rfl
  | cons a t ih =>
      have ha : p a = false := h a (List.mem_cons_self a t)
      have ht : ∀ x ∈ t, p x = false := fun x hx => h x (List.mem_cons_of_mem a hx)
      simp [List.filter_cons, ha, ih ht]

theorem find?_append_of_all_false (p : α → Bool) (l l' : List α)
    (h : ∀ x ∈ l, p x = false) : (l ++ l').find? p = l'.find? p := by
  induction l with
  | nil => rfl
  | cons a t ih =>
      have ha : p a = false := h a (List.mem_cons_self a t)
      have ht : ∀ x ∈ t, p x = false := fun x hx => h x (List.mem_cons_of_mem a hx)
      simp [List.find?_cons, ha, ih ht]

theorem all_false_of_find?_eq_none {p : α → Bool} {l : List α}
    (h : l.find? p = none) : ∀ x ∈ l, p x = false := by
  intro x hx
  have := List.find?_eq_none.mp h x hx
  exact Bool.eq_false_iff.mpr this

end ListLemmas

theorem insert_concept_list_loop (name : String) :
    ∀ (rest : List (String × Option String)) (db : DB)
      (old : List ConceptRow) (c : ConceptRow),
      db.concepts = old ++ [c] →
      (∀ x ∈ old, conceptMatches name x = false) →
      conceptMatches name c = true →
      (insert_concept_list db name rest).concepts =
        old ++ [{ c with mention_count := c.mention_count + rest.length }] := by
  intro rest
  induction rest with
  | nil =>
      intro db old c hdb _ _
      simpa [insert_concept_list] using hdb
  | cons a t ih =>
      intro db old c hdb hold hc
      have hfind : db.concepts.find? (conceptMatches name) = some c := by
        rw [hdb, find?_append_of_all_false _ _ _ hold]
        simp [List.find?_cons, hc]
      have hstep : (insert_concept db name a.1 a.2).2.concepts =
          old ++ [{ c with mention_count := c.mention_count + 1 }] := by
        simp only [insert_concept, hfind]
        rw [hdb, List.map_append, map_keep_of_all_false _ _ _ hold]
        simp [hc]
      have hc' : conceptMatches name
          { c with mention_count := c.mention_count + 1 } = true := by
        simpa [conceptMatches] using hc
      have := ih (insert_concept db name a.1 a.2).2 old
        { c with mention_count := c.mention_count + 1 } hstep hold hc'
      simp only [insert_concept_list]
      rw [this]
      simp only [List.length_cons, ConceptRow.mk.injEq, List.append_cancel_left_eq,
        List.cons.injEq, and_true, true_and]
      omega

/-- C3: starting from a store where `name` is absent, N insertions of
that name (N = 1 + rest.length) leave exactly one `concepts` row for
it, whose `mention_count` is the initial value 1 plus (N−1) — each
re-insertion added exactly 1 — and whose `concept_type` and
`description` are those supplied by the first insertion only. -/
theorem insert_concept_mention_count (db : DB) (name t0 : String)
    (d0 : Option String) (rest : List (String × Option String))
    (hfresh : db.concepts.find? (conceptMatches name) = none) :
    (insert_concept_list db name ((t0, d0) :: rest)).concepts.filter
        (conceptMatches name) =
      [{ id := db.next_concept_id, name := name, concept_type := some t0,
         description := d0, mention_count := 1 + rest.length }] := by
  have hold : ∀ x ∈ db.concepts, conceptMatches name x = false :=
    all_false_of_find?_eq_none hfresh
  set c0 : ConceptRow :=
    { id := db.next_concept_id, name := name, concept_type := some t0,
      description := d0, mention_count := 1 } with hc0
  have hc0m : conceptMatches name c0 = true := by simp [conceptMatches, hc0]
  have hstep : (insert_concept db name t0 d0).2.concepts =
      db.concepts ++ [c0] := by
    simp [insert_concept, hfresh, hc0]
  have hloop := insert_concept_list_loop name rest
    (insert_concept db name t0 d0).2 db.concepts c0 hstep hold hc0m
  simp only [insert_concept_list]
  rw [hloop, List.filter_append, filter_eq_nil_of_all_false _ _ hold]
  simp [List.filter_cons, conceptMatches, hc0, Nat.add_comm]

/-- Closed witness for `insert_concept_mention_count`: three insertions
of the concept "attention" (with differing types/descriptions) leave
one row with `mention_count = 3` and the first call's description. -/
theorem insert_concept_mention_count_witness :
    (insert_concept_list ⟨[], [], [], [], [], 1, 7, 1, 1, 1⟩ "attention"
        [("method", some "first"), ("metric", some "second"),
         ("dataset", none)]).concepts.filter (conceptMatches "attention") =
      [{ id := 7, name := "attention", concept_type := some "method",
         description := some "first", mention_count := 3 }] :=
  insert_concept_mention_count ⟨[], [], [], [], [], 1, 7, 1, 1, 1⟩
    "attention" "method" (some "first")
    [("metric", some "second"), ("dataset", none)] (by decide)

/-- C4: `link_paper_concept` is idempotent with first-write-wins
semantics — for a fresh (paper, concept) pair, the first call creates
the single association edge with its `relevance_score` and `context`,
and a second call with the same pair returns the very same state
(silently ignored, no error raised). -/
theorem link_paper_concept_idempotent (db : DB) (pid cid : Nat)
    (r1 r2 : Option ℚ) (c1 c2 : Option String)
    (hp : paperIdExists db pid = true)
    (hc : conceptIdExists db cid = true)
    (hfresh : db.paper_concepts.any (pcMatches pid cid) = false)
    (h1 : relevanceOk r1 = true) (h2 : relevanceOk r2 = true) :
    ∃ db1, link_paper_concept db pid cid r1 c1 = Except.ok db1 ∧
      db1.paper_concepts.filter (pcMatches pid cid) =
        [{ id := db.next_pc_id, paper_id := pid, concept_id := cid,
           relevance_score := r1, context := c1 }] ∧
      link_paper_concept db1 pid cid r2 c2 = Except.ok db1 := by
  set e : PaperConceptRow :=
    { id := db.next_pc_id, paper_id := pid, concept_id := cid,
      relevance_score := r1, context := c1 } with he
  have hem : pcMatches pid cid e = true := by simp [pcMatches, he]
  set db1 : DB :=
    { db with paper_concepts := db.paper_concepts ++ [e],
              next_pc_id := db.next_pc_id + 1 } with hdb1
  have hold : ∀ x ∈ db.paper_concepts, pcMatches pid cid x = false := by
    intro x hx
    exact Bool.eq_false_iff.mpr (List.any_eq_false.mp hfresh x hx)
  refine ⟨db1, ?_, ?_, ?_⟩
  · simp [link_paper_concept, hp, hc, h1, hfresh, hdb1, he]
  · rw [hdb1]
    simp only
    rw [List.filter_append, filter_eq_nil_of_all_false _ _ hold]
    simp [List.filter_cons, hem]
  · have hp1 : paperIdExists db1 pid = true := hp
    have hc1 : conceptIdExists db1 cid = true := hc
    have hany : db1.paper_concepts.any (pcMatches pid cid) = true := by
      rw [hdb1]
      simp only [List.any_append]
      simp [hem]
    simp [link_paper_concept, hp1, hc1, h2, hany]

/-- Closed witness for `link_paper_concept_idempotent` at a concrete
store holding one paper and one concept. -/
theorem link_paper_concept_idempotent_witness :
    ∃ db1,
      link_paper_concept
          ⟨[⟨3, "a", "t", none, [], none, none, none, false⟩],
           [⟨5, "n", none, none, 1⟩], [], [], [], 4, 6, 9, 1, 1⟩
          3 5 (some (1/2)) (some "ctx") = Except.ok db1 ∧
      db1.paper_concepts.filter (pcMatches 3 5) =
        [{ id := 9, paper_id := 3, concept_id := 5,
           relevance_score := some (1/2), context := some "ctx" }] ∧
      link_paper_concept db1 3 5 (some (3/4)) none = Except.ok db1 :=
  link_paper_concept_idempotent
    ⟨[⟨3, "a", "t", none, [], none, none, none, false⟩],
     [⟨5, "n", none, none, 1⟩], [], [], [], 4, 6, 9, 1, 1⟩
    3 5 (some (1/2)) (some (3/4)) (some "ctx") none
    (by decide) (by decide) (by decide)
    (by norm_num [relevanceOk]) (by norm_num [relevanceOk])

/-- C2: a relationship upsert with `source = target` or confidence
outside [0,1] fails (the validation error is surfaced and the state is
returned unmodified — no row is created or changed); with distinct
existing papers and confidence in [0,1] it succeeds and returns an edge
identity. -/
theorem insert_relationship_validation (db : DB) (src tgt : Nat)
    (rtype expl : String) (conf : ℚ) (now : Nat) :
    ((src = tgt ∨ conf < 0 ∨ 1 < conf) →
      (∃ e, (insert_relationship db src tgt rtype expl conf now).1 =
        Except.error e) ∧
      (insert_relationship db src tgt rtype expl conf now).2 = db) ∧
    (src ≠ tgt → 0 ≤ conf → conf ≤ 1 →
      paperIdExists db src = true → paperIdExists db tgt = true →
      ∃ i, (insert_relationship db src tgt rtype expl conf now).1 =
        Except.ok i) := by
  constructor
  · intro hbad
    have hcase : (src == tgt) = true ∨ confidenceOk conf = false := by
      rcases hbad with h | h | h
      · exact Or.inl (by simpa using h)
      · refine Or.inr ?_
        simp [confidenceOk, not_le.mpr h]
      · refine Or.inr ?_
        simp [confidenceOk, not_le.mpr h]
    cases hps : paperIdExists db src with
    | false => simp [insert_relationship, hps]
    | true =>
      cases hpt : paperIdExists db tgt with
      | false => simp [insert_relationship, hps, hpt]
      | true =>
        rcases hcase with h | h
        · simp [insert_relationship, hps, hpt, h]
        · cases hst : (src == tgt) with
          | true => simp [insert_relationship, hps, hpt, hst]
          | false => simp [insert_relationship, hps, hpt, hst, h]
  · intro hne h0 h1 hps hpt
    have hst : (src == tgt) = false := by simpa using hne
    have hok : confidenceOk conf = true := by simp [confidenceOk, h0, h1]
    cases hf : db.paper_relationships.find?
        (relTripleMatches src tgt rtype) with
    | some r =>
        exact ⟨r.id, by simp [insert_relationship, hps, hpt, hst, hok, hf]⟩
    | none =>
        exact ⟨db.next_rel_id,
          by simp [insert_relationship, hps, hpt, hst, hok, hf]⟩

/-- Closed witness for `insert_relationship_validation` on a store with
papers 1 and 2: the self-loop upsert fails, the valid upsert returns an
edge id. -/
theorem insert_relationship_validation_witness :
    ((∃ e, (insert_relationship
        ⟨[⟨1, "a", "t", none, [], none, none, none, false⟩,
          ⟨2, "b", "u", none, [], none, none, none, false⟩],
         [], [], [], [], 3, 1, 1, 1, 1⟩
        1 1 "cites" "x" (1/2) 0).1 = Except.error e)) ∧
    (∃ i, (insert_relationship
        ⟨[⟨1, "a", "t", none, [], none, none, none, false⟩,
          ⟨2, "b", "u", none, [], none, none, none, false⟩],
         [], [], [], [], 3, 1, 1, 1, 1⟩
        1 2 "cites" "x" (1/2) 0).1 = Except.ok i) :=
  ⟨((insert_relationship_validation
      ⟨[⟨1, "a", "t", none, [], none, none, none, false⟩,
        ⟨2, "b", "u", none, [], none, none, none, false⟩],
       [], [], [], [], 3, 1, 1, 1, 1⟩
      1 1 "cites" "x" (1/2) 0).1 (Or.inl rfl)).1,
   (insert_relationship_validation
      ⟨[⟨1, "a", "t", none, [], none, none, none, false⟩,
        ⟨2, "b", "u", none, [], none, none, none, false⟩],
       [], [], [], [], 3, 1, 1, 1, 1⟩
      1 2 "cites" "x" (1/2) 0).2 (by decide) (by norm_num)
      (by norm_num) (by decide) (by decide)⟩

theorem eq_append_singleton_of_filter_eq {α : Type _} (p : α → Bool) :
    ∀ (l : List α) (r : α), l.filter p = [r] →
      ∃ l1 l2, l = l1 ++ r :: l2 ∧ (∀ x ∈ l1, p x = false) ∧
        (∀ x ∈ l2, p x = false) ∧ p r = true := by
  intro l
  induction l with
  | nil => intro r h; simp at h
  | cons a t ih =>
      intro r h
      cases ha : p a with
      | true =>
          rw [List.filter_cons, ha] at h
          simp only [if_true] at h
          have har : a = r := (List.cons.injEq _ _ _ _ ▸ h).1
          have htf : t.filter p = [] := (List.cons.injEq _ _ _ _ ▸ h).2
          refine ⟨[], t, by simp [har], by simp, ?_, har ▸ ha⟩
          intro x hx
          have := List.filter_eq_nil_iff.mp htf x hx
          exact Bool.eq_false_iff.mpr this
      | false =>
          rw [List.filter_cons, ha] at h
          simp only [Bool.false_eq_true, if_false] at h
          obtain ⟨l1, l2, hl, h1, h2, hr⟩ := ih r h
          exact ⟨a :: l1, l2, by simp [hl],
            by intro x hx; rcases List.mem_cons.mp hx with h | h
               · exact h ▸ ha
               · exact h1 x h, h2, hr⟩

/-- C5: re-inserting an existing (source, target, type) triple leaves
exactly one edge with that triple; its `explanation` and `confidence`
are the newly supplied values (last write wins) while its id,
`extracted_at` and `validated` flag are unchanged, the returned
identity is the stored edge's id, and no row is added or removed. -/
theorem insert_relationship_overwrite (db : DB) (src tgt : Nat)
    (rtype expl : String) (conf : ℚ) (now : Nat) (r : RelationshipRow)
    (hone : db.paper_relationships.filter (relTripleMatches src tgt rtype)
      = [r])
    (hps : paperIdExists db src = true)
    (hpt : paperIdExists db tgt = true)
    (hne : src ≠ tgt) (h0 : 0 ≤ conf) (h1 : conf ≤ 1) :
    (insert_relationship db src tgt rtype expl conf now).1 =
      Except.ok r.id ∧
    (List.filter (relTripleMatches src tgt rtype)
        (insert_relationship db src tgt rtype expl conf now).2.paper_relationships) =
      [{ r with explanation := expl, confidence := conf }] ∧
    (insert_relationship db src tgt rtype expl conf now).2.paper_relationships.length =
      db.paper_relationships.length := by
  have hst : (src == tgt) = false := by simpa using hne
  have hok : confidenceOk conf = true := by simp [confidenceOk, h0, h1]
  obtain ⟨l1, l2, hl, hf1, hf2, hr⟩ :=
    eq_append_singleton_of_filter_eq _ db.paper_relationships r hone
  have hfind : db.paper_relationships.find?
      (relTripleMatches src tgt rtype) = some r := by
    rw [hl, find?_append_of_all_false _ _ _ hf1]
    simp [List.find?_cons, hr]
  have hr' : relTripleMatches src tgt rtype
      { r with explanation := expl, confidence := conf } = true := by
    simpa [relTripleMatches] using hr
  refine ⟨?_, ?_, ?_⟩
  · simp [insert_relationship, hps, hpt, hst, hok, hfind]
  · simp only [insert_relationship, hps, hpt, hst, hok, hfind, if_true,
      if_false, Bool.false_eq_true]
    rw [hl, List.map_append, map_keep_of_all_false _ _ _ hf1]
    simp only [List.map_cons, hr, if_true, map_keep_of_all_false _ _ _ hf2]
    rw [List.filter_append, filter_eq_nil_of_all_false _ _ hf1]
    simp [List.filter_cons, hr', filter_eq_nil_of_all_false _ _ hf2]
  · simp [insert_relationship, hps, hpt, hst, hok, hfind]

/-- Closed witness for `insert_relationship_overwrite`: re-inserting the
(1, 2, "cites") triple with confidence 0 and a new explanation keeps
the edge's id 8, timestamp 5 and validated flag, and overwrites the
rest. -/
theorem insert_relationship_overwrite_witness :
    (insert_relationship
        ⟨[⟨1, "a", "t", none, [], none, none, none, false⟩,
          ⟨2, "b", "u", none, [], none, none, none, false⟩],
         [], [],
         [⟨8, 1, 2, "cites", "old", 1, 5, true⟩],
         [], 3, 1, 1, 9, 1⟩
        1 2 "cites" "updated" 0 77).2.paper_relationships.filter
      (relTripleMatches 1 2 "cites") =
    [{ id := 8, source_paper_id := 1, target_paper_id := 2,
       relationship_type := "cites", explanation := "updated",
       confidence := 0, extracted_at := 5, validated := true }] :=
  (insert_relationship_overwrite
      ⟨[⟨1, "a", "t", none, [], none, none, none, false⟩,
        ⟨2, "b", "u", none, [], none, none, none, false⟩],
       [], [],
       [⟨8, 1, 2, "cites", "old", 1, 5, true⟩],
       [], 3, 1, 1, 9, 1⟩
      1 2 "cites" "updated" 0 77 ⟨8, 1, 2, "cites", "old", 1, 5, true⟩
      (by decide) (by decide) (by decide) (by decide) (by norm_num)
      (by norm_num)).2.1

/-- C6: the average-relationships aggregate of `get_statistics` is 0 on
an empty relationship set (no fault, no undefined value), and otherwise
it is the total relationship count divided by the number of distinct
source papers — and a paper id is a distinct source exactly when its
out-degree is positive, i.e. papers with zero outgoing edges are
excluded from the denominator. -/
theorem get_statistics_avg_relationships (db : DB) :
    avg_relationships_per_paper db =
      (if db.paper_relationships = [] then 0
       else round2 ((db.paper_relationships.length : ℚ) /
         ((sourceIds db).length : ℚ))) ∧
    ∀ pid : Nat, pid ∈ sourceIds db ↔ 0 < out_degree db pid := by
  constructor
  · by_cases hnil : db.paper_relationships = []
    · simp [avg_relationships_per_paper, avg_relationships_opt,
        rel_counts_by_source, sourceIds, hnil, round2]
    · have hsrc : (db.paper_relationships.map
          (fun r => r.source_paper_id)).dedup ≠ [] := by
        intro h
        exact hnil (List.map_eq_nil_iff.mp ((List.dedup_eq_nil _).mp h))
      have hcounts : rel_counts_by_source db ≠ [] := by
        simp only [rel_counts_by_source, sourceIds]
        intro h
        exact hsrc (List.map_eq_nil_iff.mp h)
      have hsum : ((rel_counts_by_source db).map (Nat.cast : Nat → ℚ)).sum
          = (db.paper_relationships.length : ℚ) := by
        have hterm : ∀ g : Nat,
            (db.paper_relationships.filter
              (fun r => r.source_paper_id == g)).length =
            (db.paper_relationships.map
              (fun r => r.source_paper_id)).count g := by
          intro g
          rw [← List.countP_eq_length_filter]
          show _ = List.countP (· == g) _
          rw [List.countP_map]
          rfl
        have hnat : (rel_counts_by_source db).sum =
            db.paper_relationships.length := by
          simp only [rel_counts_by_source, sourceIds]
          calc ((db.paper_relationships.map
                  (fun r => r.source_paper_id)).dedup.map (fun g =>
                (db.paper_relationships.filter
                  (fun r => r.source_paper_id == g)).length)).sum
              = ((db.paper_relationships.map
                  (fun r => r.source_paper_id)).dedup.map (fun g =>
                (db.paper_relationships.map
                  (fun r => r.source_paper_id)).count g)).sum := by
                  simp only [hterm]
            _ = _ := by
                  rw [List.sum_map_count_dedup_eq_length,
                    List.length_map]
        rw [← hnat, Nat.cast_list_sum]
      have hlen : ((rel_counts_by_source db).length : ℚ) =
          ((sourceIds db).length : ℚ) := by
        simp [rel_counts_by_source]
      rw [if_neg hnil]
      simp only [avg_relationships_per_paper, avg_relationships_opt,
        if_neg hcounts, Option.getD_some]
      rw [hsum, hlen]
  · intro pid
    have h1 : pid ∈ sourceIds db ↔
        ∃ r ∈ db.paper_relationships, r.source_paper_id = pid := by
      simp [sourceIds, List.mem_dedup, List.mem_map]
    have h2 : 0 < out_degree db pid ↔
        ∃ r ∈ db.paper_relationships,
          (r.source_paper_id == pid) = true := by
      rw [out_degree, ← List.countP_eq_length_filter]
      exact List.countP_pos_iff
    rw [h1, h2]
    constructor
    · rintro ⟨r, hr, he⟩; exact ⟨r, hr, by simpa using he⟩
    · rintro ⟨r, hr, he⟩; exact ⟨r, hr, by simpa using he⟩

/-- C9 counterexample: with two equal-confidence edges (ids 1 and 2)
incident to paper 1, the output listing id 2 before id 1 satisfies the
query's ORDER BY contract, yet violates the claimed
ascending-id tie-break — the code's `ORDER BY pr.confidence DESC` does
not promise any tie order. -/
theorem get_paper_relationships_tie_counterexample :
    isQueryResult
      ⟨[⟨1, "a1", "t1", none, [], none, none, none, false⟩,
        ⟨2, "a2", "t2", none, [], none, none, none, false⟩],
       [], [],
       [⟨1, 1, 2, "cites", "x", 1, 0, false⟩,
        ⟨2, 1, 2, "extends", "y", 1, 0, false⟩],
       [], 3, 1, 1, 3, 1⟩ 1 0
      [⟨2, "extends", "y", 1, "t1", "t2", "a2"⟩,
       ⟨1, "cites", "x", 1, "t1", "t2", "a2"⟩] ∧
    ¬ claimTieOrder
      [⟨2, "extends", "y", 1, "t1", "t2", "a2"⟩,
       ⟨1, "cites", "x", 1, "t1", "t2", "a2"⟩] := by
  constructor
  · constructor
    · show List.Perm _ _
      decide
    · decide
  · intro h
    have := List.rel_of_pairwise_cons h (List.mem_singleton.mpr rfl)
    rcases this with h' | h'
    · exact absurd h' (by decide)
    · exact absurd h'.2 (by decide)

/-- C9 (amended): every admissible output of `get_paper_relationships`
consists of exactly the edges incident to the paper with confidence ≥
the threshold (each represented once, joined with its endpoint titles),
arranged with confidence non-increasing; the relative order of
equal-confidence rows is not specified by the query. -/
theorem get_paper_relationships_contract (db : DB) (pid : Nat)
    (minc : ℚ)
    (hfk : ∀ r ∈ db.paper_relationships,
      (findPaperById db r.source_paper_id).isSome ∧
      (findPaperById db r.target_paper_id).isSome) :
    ∀ out : List RelQueryRow, isQueryResult db pid minc out →
      out.Pairwise (fun a b => b.confidence ≤ a.confidence) ∧
      (∀ r ∈ db.paper_relationships, relWhere pid minc r = true →
        ∃ q ∈ out, q.id = r.id ∧ q.confidence = r.confidence ∧
          q.explanation = r.explanation ∧
          q.relationship_type = r.relationship_type) ∧
      (∀ q ∈ out, ∃ r ∈ db.paper_relationships,
        relWhere pid minc r = true ∧ q.id = r.id ∧
          q.confidence = r.confidence) := by
  rintro out ⟨hperm, hsorted⟩
  refine ⟨hsorted, ?_, ?_⟩
  · intro r hr hw
    obtain ⟨hs, ht⟩ := hfk r hr
    obtain ⟨s, hs'⟩ := Option.isSome_iff_exists.mp hs
    obtain ⟨t, ht'⟩ := Option.isSome_iff_exists.mp ht
    have hjoin : ∃ q0 : RelQueryRow, joinPapers db r = some q0 ∧
        q0.id = r.id ∧ q0.confidence = r.confidence ∧
        q0.explanation = r.explanation ∧
        q0.relationship_type = r.relationship_type := by
      refine ⟨{ id := r.id, relationship_type := r.relationship_type,
                explanation := r.explanation,
                confidence := r.confidence, source_title := s.title,
                target_title := t.title,
                target_arxiv_id := t.arxiv_id }, ?_, rfl, rfl, rfl, rfl⟩
      simp [joinPapers, hs', ht']
    obtain ⟨q0, hj, h1, h2, h3, h4⟩ := hjoin
    have hmem : q0 ∈ get_paper_relationships_rows db pid minc := by
      rw [get_paper_relationships_rows]
      exact List.mem_filterMap.mpr
        ⟨r, List.mem_filter.mpr ⟨hr, hw⟩, hj⟩
    exact ⟨q0, hperm.mem_iff.mpr hmem, h1, h2, h3, h4⟩
  · intro q hq
    have hmem : q ∈ get_paper_relationships_rows db pid minc :=
      hperm.mem_iff.mp hq
    rw [get_paper_relationships_rows] at hmem
    obtain ⟨r, hr, hjoin⟩ := List.mem_filterMap.mp hmem
    obtain ⟨hrmem, hrw⟩ := List.mem_filter.mp hr
    refine ⟨r, hrmem, hrw, ?_, ?_⟩
    · unfold joinPapers at hjoin
      rcases hfs : findPaperById db r.source_paper_id with _ | s <;>
        rcases hft : findPaperById db r.target_paper_id with _ | t <;>
          rw [hfs, hft] at hjoin <;> simp at hjoin
      exact (congrArg RelQueryRow.id hjoin.symm)
    · unfold joinPapers at hjoin
      rcases hfs : findPaperById db r.source_paper_id with _ | s <;>
        rcases hft : findPaperById db r.target_paper_id with _ | t <;>
          rw [hfs, hft] at hjoin <;> simp at hjoin
      exact (congrArg RelQueryRow.confidence hjoin.symm)

/-- Closed witness for `get_paper_relationships_contract` on a
one-edge store, taking the singleton output. -/
theorem get_paper_relationships_contract_witness :
    List.Pairwise
      (fun a b => RelQueryRow.confidence b ≤ RelQueryRow.confidence a)
      [⟨1, "cites", "x", 1, "t1", "t2", "a2"⟩] ∧
    (∀ r ∈ [(⟨1, 1, 2, "cites", "x", 1, 0, false⟩ : RelationshipRow)],
      relWhere 1 0 r = true →
      ∃ q ∈ [(⟨1, "cites", "x", 1, "t1", "t2", "a2"⟩ : RelQueryRow)],
        q.id = r.id ∧ q.confidence = r.confidence ∧
        q.explanation = r.explanation ∧
        q.relationship_type = r.relationship_type) ∧
    (∀ q ∈ [(⟨1, "cites", "x", 1, "t1", "t2", "a2"⟩ : RelQueryRow)],
      ∃ r ∈ [(⟨1, 1, 2, "cites", "x", 1, 0, false⟩ : RelationshipRow)],
        relWhere 1 0 r = true ∧ q.id = r.id ∧
        q.confidence = r.confidence) :=
  get_paper_relationships_contract
    ⟨[⟨1, "a1", "t1", none, [], none, none, none, false⟩,
      ⟨2, "a2", "t2", none, [], none, none, none, false⟩],
     [], [], [⟨1, 1, 2, "cites", "x", 1, 0, false⟩], [], 3, 1, 1, 2, 1⟩
    1 0 (by decide)
    [⟨1, "cites", "x", 1, "t1", "t2", "a2"⟩]
    ⟨by show List.Perm _ _; decide, by decide⟩

/-- C10: the bulk-upload path is insert-or-ignore — when the arxiv
identifier is already stored, `upload_2_db_insert` returns the state
completely unchanged (first write wins for every field, including
`full_text`) — whereas `insert_paper` on the same store overwrites the
stored row's `title`, `abstract` and `full_text` with the new
values. -/
theorem upload_2_db_insert_or_ignore (db : DB) (d : PaperData)
    (r : PaperRow)
    (hone : db.papers.filter (paperMatches d.arxiv_id) = [r]) :
    (∀ abstract published local_pdf_path,
      upload_2_db_insert db d.arxiv_id d.title abstract d.authors
        published local_pdf_path d.is_seminal = db) ∧
    (insert_paper db d).1 = r.id ∧
    (insert_paper db d).2.papers.filter (paperMatches d.arxiv_id) =
      [{ r with title := d.title, abstract := d.abstract,
                full_text := d.full_text }] := by
  obtain ⟨l1, l2, hl, hf1, hf2, hr⟩ :=
    eq_append_singleton_of_filter_eq _ db.papers r hone
  have hany : db.papers.any (paperMatches d.arxiv_id) = true :=
    List.any_eq_true.mpr ⟨r, by rw [hl]; simp, hr⟩
  have hfind : db.papers.find? (paperMatches d.arxiv_id) = some r := by
    rw [hl, find?_append_of_all_false _ _ _ hf1]
    simp [List.find?_cons, hr]
  have hr' : paperMatches d.arxiv_id
      { r with title := d.title, abstract := d.abstract,
               full_text := d.full_text } = true := by
    simpa [paperMatches] using hr
  refine ⟨?_, ?_, ?_⟩
  · intro abstract published local_pdf_path
    simp [upload_2_db_insert, hany]
  · simp [insert_paper, hfind]
  · simp only [insert_paper, hfind]
    rw [hl, List.map_append, map_keep_of_all_false _ _ _ hf1]
    simp only [List.map_cons, hr, if_true, map_keep_of_all_false _ _ _ hf2]
    rw [List.filter_append, filter_eq_nil_of_all_false _ _ hf1]
    simp [List.filter_cons, hr', filter_eq_nil_of_all_false _ _ hf2]

/-- Closed witness for `upload_2_db_insert_or_ignore`: re-uploading an
already-stored identifier changes nothing, while `insert_paper`
overwrites title/abstract/full_text in place. -/
theorem upload_2_db_insert_or_ignore_witness :
    (∀ abstract published local_pdf_path,
      upload_2_db_insert
        ⟨[⟨1, "2308.04079", "old-title", some "old-abs", ["x"],
           some "2023-08-04", some "p.pdf", some "old-text", true⟩],
         [], [], [], [], 2, 1, 1, 1, 1⟩
        "2308.04079" "new-title" abstract ["y"] published
        local_pdf_path false =
      ⟨[⟨1, "2308.04079", "old-title", some "old-abs", ["x"],
         some "2023-08-04", some "p.pdf", some "old-text", true⟩],
       [], [], [], [], 2, 1, 1, 1, 1⟩) ∧
    (insert_paper
      ⟨[⟨1, "2308.04079", "old-title", some "old-abs", ["x"],
         some "2023-08-04", some "p.pdf", some "old-text", true⟩],
       [], [], [], [], 2, 1, 1, 1, 1⟩
      ⟨"2308.04079", "new-title", some "new-abs", ["y"], none, none,
       some "new-text", false⟩).1 = 1 ∧
    (insert_paper
      ⟨[⟨1, "2308.04079", "old-title", some "old-abs", ["x"],
         some "2023-08-04", some "p.pdf", some "old-text", true⟩],
       [], [], [], [], 2, 1, 1, 1, 1⟩
      ⟨"2308.04079", "new-title", some "new-abs", ["y"], none, none,
       some "new-text", false⟩).2.papers.filter
        (paperMatches "2308.04079") =
      [⟨1, "2308.04079", "new-title", some "new-abs", ["x"],
        some "2023-08-04", some "p.pdf", some "new-text", true⟩] :=
  upload_2_db_insert_or_ignore
    ⟨[⟨1, "2308.04079", "old-title", some "old-abs", ["x"],
       some "2023-08-04", some "p.pdf", some "old-text", true⟩],
     [], [], [], [], 2, 1, 1, 1, 1⟩
    ⟨"2308.04079", "new-title", some "new-abs", ["y"], none, none,
     some "new-text", false⟩
    ⟨1, "2308.04079", "old-title", some "old-abs", ["x"],
     some "2023-08-04", some "p.pdf", some "old-text", true⟩
    (by decide)

/-- C1: calling `insert_paper` twice with the same (fresh) arxiv
identifier leaves exactly one `papers` row for that identifier; the
second call's `title`, `abstract` and `full_text` overwrite the first
call's values while `authors` and `published_date` (and the other
unlisted columns) keep the first call's values, and both calls return
the same id. -/
theorem insert_paper_upsert_twice (db : DB) (d1 d2 : PaperData)
    (hfresh : db.papers.find? (paperMatches d1.arxiv_id) = none)
    (hid : d2.arxiv_id = d1.arxiv_id) :
    (insert_paper db d1).1 = db.next_paper_id ∧
    (insert_paper (insert_paper db d1).2 d2).1 = db.next_paper_id ∧
    (insert_paper (insert_paper db d1).2 d2).2.papers.filter
        (paperMatches d1.arxiv_id) =
      [{ id := db.next_paper_id, arxiv_id := d1.arxiv_id,
         title := d2.title, abstract := d2.abstract,
         authors := d1.authors, published_date := d1.published_date,
         pdf_path := d1.pdf_path, full_text := d2.full_text,
         is_seminal := d1.is_seminal }] := by
  have hold : ∀ x ∈ db.papers, paperMatches d1.arxiv_id x = false :=
    all_false_of_find?_eq_none hfresh
  set c1 : PaperRow :=
    { id := db.next_paper_id, arxiv_id := d1.arxiv_id,
      title := d1.title, abstract := d1.abstract,
      authors := d1.authors, published_date := d1.published_date,
      pdf_path := d1.pdf_path, full_text := d1.full_text,
      is_seminal := d1.is_seminal } with hc1
  have hmatch : paperMatches d1.arxiv_id c1 = true := by
    simp [paperMatches, hc1]
  have h1 : insert_paper db d1 =
      (db.next_paper_id,
       { db with papers := db.papers ++ [c1],
                 next_paper_id := db.next_paper_id + 1 }) := by
    simp [insert_paper, hfresh, hc1]
  have hfind2 : ((db.papers ++ [c1]).find? (paperMatches d2.arxiv_id))
      = some c1 := by
    rw [hid, find?_append_of_all_false _ _ _ hold]
    simp [List.find?_cons, hmatch]
  refine ⟨by rw [h1], ?_, ?_⟩
  · rw [h1]
    simp only [insert_paper, hfind2]
  · rw [h1]
    simp only [insert_paper, hfind2]
    rw [hid]
    rw [List.map_append, map_keep_of_all_false _ _ _ hold]
    rw [List.filter_append, filter_eq_nil_of_all_false _ _ hold]
    simp [paperMatches, hc1, List.filter_cons]

/-- Closed witness for `insert_paper_upsert_twice` at a concrete
database and two concrete paper records sharing one identifier. -/
theorem insert_paper_upsert_twice_witness :
    (insert_paper
        (insert_paper ⟨[], [], [], [], [], 1, 1, 1, 1, 1⟩
          ⟨"2308.04079", "A", none, ["x"], some "2023-08-04", none,
           none, false⟩).2
        ⟨"2308.04079", "B", some "abs", ["y"], some "2024-01-01",
         some "p.pdf", some "hello", true⟩).2.papers.filter
      (paperMatches "2308.04079") =
    [{ id := 1, arxiv_id := "2308.04079", title := "B",
       abstract := some "abs", authors := ["x"],
       published_date := some "2023-08-04", pdf_path := none,
       full_text := some "hello", is_seminal := false }] :=
  (insert_paper_upsert_twice ⟨[], [], [], [], [], 1, 1, 1, 1, 1⟩
      ⟨"2308.04079", "A", none, ["x"], some "2023-08-04", none, none,
       false⟩
      ⟨"2308.04079", "B", some "abs", ["y"], some "2024-01-01",
       some "p.pdf", some "hello", true⟩
      (by decide) rfl).2.2

/-- C7: a paper whose identifier is already stored with non-empty full
text goes straight to Skipped — the store and audit log are completely
untouched (no artifact acquisition, no extraction, no write), only the
`skipped` counter is bumped, and the run continues with the remaining
papers. -/
theorem process_papers_skips_completed (db : DB) (st : RunStats)
    (inp : PaperInput) (rest : List PaperInput) (p : PaperRow)
    (hex : get_paper_by_arxiv_id db inp.meta.arxiv_id = some p)
    (htext : textPresent p.full_text = true) :
    process_one_paper db st inp =
      (db, { st with skipped := st.skipped + 1 }) ∧
    process_papers_loop db st (inp :: rest) =
      process_papers_loop db { st with skipped := st.skipped + 1 } rest := by
  have hdone : alreadyDone db inp.meta.arxiv_id = true := by
    simp [alreadyDone, hex, htext]
  constructor
  · simp [process_one_paper, hdone]
  · simp [process_papers_loop, process_one_paper, hdone]

/-- Closed witness for `process_papers_skips_completed` at a store
already holding the paper with text. -/
theorem process_papers_skips_completed_witness :
    process_one_paper
      ⟨[⟨1, "idA", "TA", some "", [], none, none, some "textA", false⟩],
       [], [], [], [], 2, 1, 1, 1, 1⟩
      ⟨3, 0, 0, 0, 0⟩
      ⟨⟨"idA", "TA", "", [], "", none, false⟩, false, none⟩ =
    (⟨[⟨1, "idA", "TA", some "", [], none, none, some "textA", false⟩],
      [], [], [], [], 2, 1, 1, 1, 1⟩,
     ⟨3, 0, 0, 0, 1⟩) :=
  (process_papers_skips_completed
    ⟨[⟨1, "idA", "TA", some "", [], none, none, some "textA", false⟩],
     [], [], [], [], 2, 1, 1, 1, 1⟩
    ⟨3, 0, 0, 0, 0⟩
    ⟨⟨"idA", "TA", "", [], "", none, false⟩, false, none⟩ []
    ⟨1, "idA", "TA", some "", [], none, none, some "textA", false⟩
    (by decide) (by decide)).1

/-- `insert_paper` never touches the audit-log table. -/
theorem insert_paper_extraction_logs (db : DB) (d : PaperData) :
    (insert_paper db d).2.extraction_logs = db.extraction_logs := by
  unfold insert_paper
  cases db.papers.find? (paperMatches d.arxiv_id) <;> rfl

/-- C8 counterexample: in the three-identifier run the counters do come
out as skipped=1, failed artifact=1, successful=1 and nothing
propagates, but only ONE audit row exists (the success row of "idC"),
not three — the skip and missing-artifact transitions of
`process_one_paper` write no `ExtractionLog` row at all, and no row
with status "failed" is ever written. -/
theorem process_papers_audit_counterexample :
    (process_papers scn_store scn_inputs).2 = ⟨3, 1, 1, 0, 1⟩ ∧
    (process_papers scn_store scn_inputs).1.extraction_logs.length = 1 ∧
    ¬ ((process_papers scn_store scn_inputs).1.extraction_logs.length
        = 3) ∧
    (process_papers scn_store scn_inputs).1.extraction_logs.filter
      (fun l => l.status == "failed") = [] := by
  decide

/-- C8 (amended): per-paper transitions write an `ExtractionLog` row
only on the successful-extraction path — the number of audit rows a
transition adds equals the increase of the `successful` counter (so
skipped and failed-artifact papers add none) — and the three-identifier
run (one already complete, one without artifact, one successful)
reports skipped=1, failed_pdf=1, successful=1 with exactly one audit
row added; the orchestrator is a total function, so no exception
reaches the caller. -/
theorem process_papers_audit_log_discipline :
    (∀ (db : DB) (st : RunStats) (inp : PaperInput),
      (process_one_paper db st inp).1.extraction_logs.length =
        db.extraction_logs.length +
          ((process_one_paper db st inp).2.successful - st.successful)) ∧
    (process_papers scn_store scn_inputs).2 = ⟨3, 1, 1, 0, 1⟩ ∧
    (process_papers scn_store scn_inputs).1.extraction_logs.length =
      scn_store.extraction_logs.length + 1 := by
  refine ⟨?_, by decide, by decide⟩
  intro db st inp
  by_cases hdone : alreadyDone db inp.meta.arxiv_id
  · simp [process_one_paper, hdone]
  · by_cases hpdf : pdfMissing inp
    · simp [process_one_paper, hdone, hpdf, insert_paper_extraction_logs]
    · cases hext : inp.extracted with
      | none => simp [process_one_paper, hdone, hpdf, hext]
      | some t =>
          by_cases ht : t == ""
          · simp [process_one_paper, hdone, hpdf, hext, ht]
          · simp [process_one_paper, hdone, hpdf, hext, ht,
              log_extraction, insert_paper_extraction_logs]

end KG
